import Mathlib

/-!
Verification of the heara frontend script (src/script.js).

Each JavaScript class that the spec's claims mention is shallowly embedded
as Lean definitions: DOM state becomes explicit record types, methods become
state-transformer functions, and network effects become explicit parameters
(the response the remote endpoint would return).  JavaScript numbers used
here are integers in practice, so they are modelled by `Int`/`Nat`;
JavaScript's `%` operator is a truncated remainder and is modelled by
`Int.tmod`.
-/

namespace Heara

/-! ## Carousel (class `Carousel`, src/script.js lines 67-96) -/

/-- State of the `Carousel` component: the slide nodes captured from the
track's children (`this.slides`), the current slide index
(`this.currentIndex`), and the CSS `transform` string currently set on the
track element (`this.track.style.transform`). -/
structure CarouselState where
  slides : List String
  currentIndex : Int
  trackTransform : String
deriving DecidableEq

/-- Method `Carousel.moveSlide(direction)` (src/script.js lines 89-95):
returns immediately when `this.slides.length === 0`; otherwise sets
`this.currentIndex = (this.currentIndex + direction + this.slides.length)
% this.slides.length` (JavaScript `%` is truncated remainder, `Int.tmod`)
and sets the track transform to `translateX(<currentIndex * -100>%)`. -/
def moveSlide (direction : Int) (c : CarouselState) : CarouselState :=
  if c.slides.length = 0 then c
  else
    let idx := Int.tmod (c.currentIndex + direction + (c.slides.length : Int))
      ((c.slides.length : Int))
    let amount := idx * -100
    { c with currentIndex := idx
           , trackTransform := "translateX(" ++ toString amount ++ "%)" }

/-- Whenever the shifted index is non-negative (so that the JavaScript `%`
agrees with the mathematical modulus), one `moveSlide` step computes that
modulus, stays in range, and preserves the slide list. -/
theorem moveSlide_step (d : Int) (c : CarouselState)
    (hcount : 1 ≤ c.slides.length)
    (hnonneg : 0 ≤ c.currentIndex + d + (c.slides.length : Int)) :
    (moveSlide d c).slides = c.slides ∧
    (moveSlide d c).currentIndex
      = (c.currentIndex + d + (c.slides.length : Int)) % (c.slides.length : Int) ∧
    0 ≤ (moveSlide d c).currentIndex ∧
    (moveSlide d c).currentIndex < (c.slides.length : Int) ∧
    (moveSlide d c).trackTransform
      = "translateX(" ++ toString ((moveSlide d c).currentIndex * -100) ++ "%)" := by
  have hne : c.slides.length ≠ 0 := by omega
  have hpos : (0 : Int) < (c.slides.length : Int) := by exact_mod_cast Nat.pos_of_ne_zero hne
  have htmod : Int.tmod (c.currentIndex + d + (c.slides.length : Int)) ((c.slides.length : Int))
      = (c.currentIndex + d + (c.slides.length : Int)) % (c.slides.length : Int) :=
    Int.tmod_eq_emod hnonneg (le_of_lt hpos)
  have hms : moveSlide d c
      = { c with
            currentIndex :=
              (c.currentIndex + d + (c.slides.length : Int)) % (c.slides.length : Int)
          , trackTransform := "translateX("
              ++ toString (((c.currentIndex + d + (c.slides.length : Int))
                  % (c.slides.length : Int)) * -100) ++ "%)" } := by
    simp only [moveSlide, if_neg hne, htmod]
  rw [hms]
  refine ⟨rfl, rfl, ?_, ?_, rfl⟩
  · exact Int.emod_nonneg _ (by omega)
  · exact Int.emod_lt_of_pos _ hpos

/-- C1: for every carousel with at least one slide and current index in
`[0, count)`, `moveSlide(direction)` sets the new index to
`(index + direction + count) mod count`, which lies in `[0, count)`, and
sets the track's transform to a horizontal translation of
`-100 * index` percent.  The direction is only assumed to be at least
`-count`, which covers the two directions the script ever passes, `+1` and
`-1`; JavaScript's truncated `%` coincides with the mathematical modulus
exactly on that range. -/
theorem C1_moveSlide_wraps (c : CarouselState) (d : Int)
    (hcount : 1 ≤ c.slides.length)
    (hlo : 0 ≤ c.currentIndex) (hhi : c.currentIndex < (c.slides.length : Int))
    (hdir : -(c.slides.length : Int) ≤ d) :
    (moveSlide d c).currentIndex
      = (c.currentIndex + d + (c.slides.length : Int)) % (c.slides.length : Int) ∧
    0 ≤ (moveSlide d c).currentIndex ∧
    (moveSlide d c).currentIndex < (c.slides.length : Int) ∧
    (moveSlide d c).trackTransform
      = "translateX(" ++ toString (-100 * (moveSlide d c).currentIndex) ++ "%)" := by
  obtain ⟨-, h1, h2, h3, h4⟩ := moveSlide_step d c hcount (by omega)
  refine ⟨h1, h2, h3, ?_⟩
  rw [h4, Int.mul_comm]

/-- Witness for C1: a three-slide carousel at index 1 moved forward lands at
index `(1 + 1 + 3) mod 3 = 2` with transform `translateX(-200%)`. -/
theorem C1_moveSlide_wraps_witness :
    (moveSlide 1 ⟨["a", "b", "c"], 1, "t"⟩).currentIndex = 2 ∧
    (moveSlide 1 ⟨["a", "b", "c"], 1, "t"⟩).trackTransform = "translateX(-200%)" := by
  have h := C1_moveSlide_wraps ⟨["a", "b", "c"], 1, "t"⟩ 1 (by decide) (by decide)
    (by decide) (by decide)
  exact ⟨by rw [h.1]; decide, by rw [h.2.2.2, h.1]; decide⟩

/-- After `k` iterations of `moveSlide d` from an in-range index `i`, the
index is `(i + k * d) mod count`. -/
theorem moveSlide_iterate_index (d : Int) (hdir : d = 1 ∨ d = -1) (n : Nat)
    (hn : 1 ≤ n) (k : Nat) :
    ∀ c : CarouselState, c.slides.length = n →
      0 ≤ c.currentIndex → c.currentIndex < (n : Int) →
      ((moveSlide d)^[k] c).currentIndex = (c.currentIndex + (k : Int) * d) % (n : Int) := by
  induction k with
  | zero =>
    intro c _ hlo hhi
    simp only [Function.iterate_zero, id_eq, Nat.cast_zero, zero_mul, add_zero]
    exact (Int.emod_eq_of_lt hlo hhi).symm
  | succ k ih =>
    intro c hlen hlo hhi
    obtain ⟨hs, hidx, hlo', hhi', -⟩ :=
      moveSlide_step d c (by omega)
        (by rcases hdir with h | h <;> subst h <;> omega)
    rw [Function.iterate_succ_apply]
    rw [ih (moveSlide d c) (by rw [hs, hlen]) hlo' (by rw [← hlen]; exact hhi')]
    rw [hidx, hlen]
    rw [Int.emod_add_emod]
    have harr : c.currentIndex + d + (n : Int) + (k : Int) * d
        = (c.currentIndex + ((k : Int) + 1) * d) + (n : Int) * 1 := by ring
    rw [harr, Int.add_mul_emod_self_left]
    congr 2

/-- C6: for every slide count `n`, starting index in `[0, n)` and direction
in `{+1, -1}`, iterating `moveSlide` `n` times returns the index to its
starting value. -/
theorem C6_moveSlide_cycle (n : Nat) (c : CarouselState) (d : Int)
    (hlen : c.slides.length = n)
    (hlo : 0 ≤ c.currentIndex) (hhi : c.currentIndex < (n : Int))
    (hdir : d = 1 ∨ d = -1) :
    ((moveSlide d)^[n] c).currentIndex = c.currentIndex := by
  have hn : 1 ≤ n := by
    by_contra h
    have : n = 0 := by omega
    subst this
    omega
  rw [moveSlide_iterate_index d hdir n hn n c hlen hlo hhi]
  rw [Int.add_mul_emod_self_left]
  exact Int.emod_eq_of_lt hlo hhi

/-- Witness for C6: a three-slide carousel at index 1 returns to index 1
after three forward moves. -/
theorem C6_moveSlide_cycle_witness :
    ((moveSlide 1)^[3] ⟨["a", "b", "c"], 1, "t"⟩).currentIndex = 1 := by
  have h := C6_moveSlide_cycle 3 ⟨["a", "b", "c"], 1, "t"⟩ 1 (by decide) (by decide)
    (by decide) (Or.inl rfl)
  exact h

/-- C10: with zero slides, `moveSlide` returns the state unchanged for every
direction (the guard `if (this.slides.length === 0) return;` fires before
anything is touched, so nothing can throw). -/
theorem C10_moveSlide_empty_noop (d : Int) (c : CarouselState)
    (h : c.slides = []) :
    moveSlide d c = c := by
  simp [moveSlide, h]

/-- Witness for C10: moving an empty carousel by 5 leaves it unchanged. -/
theorem C10_moveSlide_empty_noop_witness :
    moveSlide 5 ⟨[], 0, "x"⟩ = ⟨[], 0, "x"⟩ :=
  C10_moveSlide_empty_noop 5 ⟨[], 0, "x"⟩ rfl

/-! ## LanguageManager (class `LanguageManager`, src/script.js lines 144-228) -/

/-- The two supported locales. -/
inductive Lang
  | en
  | he
deriving DecidableEq

/-- Line 209, `this.currentLang === 'en' ? 'he' : 'en'`. -/
def Lang.flip : Lang → Lang
  | .en => .he
  | .he => .en

/-- The string written to `document.documentElement.lang` (line 211). -/
def Lang.code : Lang → String
  | .en => "en"
  | .he => "he"

/-- Dictionary `this.translations.en` (lines 149-173), in source order. -/
def enPairs : List (String × String) :=
  [("nav_product", "Siman 3"),
   ("nav_tech", "Technology"),
   ("nav_specs", "Specifications"),
   ("nav_preorder", "Pre-Order"),
   ("hero_label", "The New Standard"),
   ("hero_title", "Control Light.<br />Master Atmosphere."),
   ("hero_desc", "The Siman 3 Triple Circuit Switch. Precision intensity and temperature control in a singular, architectural interface."),
   ("hero_btn_discover", "Discover Siman 3"),
   ("hero_btn_watch", "Watch Film"),
   ("lang_btn", "HE"),
   ("gallery_title", "Moods & Atmospheres"),
   ("gallery_subtitle", "Experience the spectrum of light."),
   ("slide_1_caption", "Romantic Evening"),
   ("slide_2_caption", "Morning Clarity"),
   ("slide_3_caption", "Deep Relaxation"),
   ("gallery_quote", "\"Light is the fourth dimension of architecture.\""),
   ("gallery_desc", "Seamlessly transition between scenes. Our API-driven presets allow you to curate your environment with a single touch."),
   ("footer_title", "Stay Illuminated"),
   ("footer_desc", "Join the waitlist for exclusive updates."),
   ("footer_name", "Full Name"),
   ("footer_email", "Email Address"),
   ("footer_phone", "Phone Number"),
   ("footer_btn", "Subscribe")]

/-- Dictionary `this.translations.he` (lines 174-198), in source order. -/
def hePairs : List (String × String) :=
  [("nav_product", "סימן 3"),
   ("nav_tech", "טכנולוגיה"),
   ("nav_specs", "מפרט טכני"),
   ("nav_preorder", "הזמנה מוקדמת"),
   ("hero_label", "הסטנדרט החדש"),
   ("hero_title", "לשלוט באור.<br />לנהל את האווירה."),
   ("hero_desc", "מתג המעגל המשולש סימן 3. שליטה מדויקת בעוצמה ובטמפרטורה בממשק אדריכלי יחיד."),
   ("hero_btn_discover", "גלה את סימן 3"),
   ("hero_btn_watch", "צפה בסרטון"),
   ("lang_btn", "EN"),
   ("gallery_title", "מצבי רוח ואווירה"),
   ("gallery_subtitle", "חווה את כל ספקטרום האור."),
   ("slide_1_caption", "ערב רומנטי"),
   ("slide_2_caption", "צלילות של בוקר"),
   ("slide_3_caption", "רגיעה עמוקה"),
   ("gallery_quote", "\"אור הוא המימד הרביעי של הארכיטקטורה.\""),
   ("gallery_desc", "עבור בצורה חלקה בין סצנות. ההגדרות החכמות שלנו מאפשרות לך לעצב את הסביבה שלך בנגיעה אחת."),
   ("footer_title", "הישאר מואר"),
   ("footer_desc", "הצטרף לרשימת ההמתנה לעדכונים בלעדיים."),
   ("footer_name", "שם מלא"),
   ("footer_email", "כתובת מייל"),
   ("footer_phone", "מספר טלפון"),
   ("footer_btn", "הרשמה")]

/-- The per-locale dictionary object. -/
def translationPairs : Lang → List (String × String)
  | .en => enPairs
  | .he => hePairs

/-- Property access `this.translations[lang][key]`: `none` models an absent property. -/
def translations (l : Lang) (key : String) : Option String :=
  (translationPairs l).lookup key

/-- One element carrying a `data-i18n` attribute: its locale key, whether
its tag is `INPUT`/`TEXTAREA`, its rendered content and its placeholder. -/
structure PageElement where
  key : String
  tagIsInput : Bool
  innerHTML : String
  placeholder : String
deriving DecidableEq

/-- The document state `toggleLanguage` reads and writes: the manager's
`currentLang`, `document.documentElement.dir` and `.lang`, the text of the
`.lang-toggle` buttons, and every element carrying `data-i18n`. -/
structure PageState where
  currentLang : Lang
  dir : String
  lang : String
  btnText : String
  elements : List PageElement
deriving DecidableEq

/-- The loop body of lines 213-222: look the element's key up in the new
locale's dictionary; when the value is truthy (present and non-empty),
write it to `placeholder` for `INPUT`/`TEXTAREA` elements and to
`innerHTML` otherwise; otherwise leave the element untouched. -/
def updateElement (dict : String → Option String) (e : PageElement) : PageElement :=
  match dict e.key with
  | some t =>
      if t = "" then e
      else if e.tagIsInput then { e with placeholder := t }
      else { e with innerHTML := t }
  | none => e

/-- Lines 224-226: `btn.textContent = this.translations[this.currentLang]
.lang_btn`; an absent property would render as `"undefined"`. -/
def langBtnLabel (dict : String → Option String) : String :=
  match dict "lang_btn" with
  | some t => t
  | none => "undefined"

/-- Method `LanguageManager.toggleLanguage` (lines 208-227), parametric in the
translation table so that properties about arbitrary dictionaries can be
stated. -/
def toggleLanguageWith (trans : Lang → String → Option String)
    (st : PageState) : PageState :=
  let newLang := st.currentLang.flip
  { currentLang := newLang
  , dir := if newLang = Lang.he then "rtl" else "ltr"
  , lang := newLang.code
  , btnText := langBtnLabel (trans newLang)
  , elements := st.elements.map (updateElement (trans newLang)) }

/-- Method `toggleLanguage` with the script's fixed translation table. -/
def toggleLanguage : PageState → PageState :=
  toggleLanguageWith translations

theorem Lang.flip_flip (l : Lang) : l.flip.flip = l := by
  cases l <;> rfl

/-- Lookup succeeds or fails depending only on the key column. -/
theorem lookup_none_iff_of_keys_eq {β : Type} :
    ∀ (l1 l2 : List (String × β)), l1.map Prod.fst = l2.map Prod.fst →
      ∀ k : String, (l1.lookup k = none ↔ l2.lookup k = none) := by
  intro l1
  induction l1 with
  | nil =>
    intro l2 h k
    cases l2 with
    | nil => simp
    | cons b bs => simp at h
  | cons a as ih =>
    intro l2 h k
    cases l2 with
    | nil => simp at h
    | cons b bs =>
      obtain ⟨a1, a2⟩ := a
      obtain ⟨b1, b2⟩ := b
      simp only [List.map_cons, List.cons.injEq] at h
      obtain ⟨h1, h2⟩ := h
      subst h1
      rw [List.lookup_cons, List.lookup_cons]
      cases hk : k == a1 with
      | true => simp
      | false => simpa using ih bs h2 k

/-- A value returned by `List.lookup` occurs in the value column. -/
theorem lookup_some_snd_mem {β : Type} :
    ∀ (l : List (String × β)) (k : String) (t : β),
      l.lookup k = some t → t ∈ l.map Prod.snd := by
  intro l
  induction l with
  | nil => intro k t h; simp [List.lookup] at h
  | cons a as ih =>
    intro k t h
    obtain ⟨a1, a2⟩ := a
    rw [List.lookup_cons] at h
    cases hk : k == a1 with
    | true =>
      rw [hk] at h
      simp only at h
      simp [← Option.some_inj.mp h]
    | false =>
      rw [hk] at h
      simp only at h
      simp [ih k t h]

/-- The two dictionaries bind exactly the same keys, in the same order. -/
theorem translation_keys_eq : enPairs.map Prod.fst = hePairs.map Prod.fst := by
  rfl

/-- A key is absent from one locale's dictionary exactly when it is absent
from the other's. -/
theorem translations_flip_none (l : Lang) (k : String) :
    translations l.flip k = none ↔ translations l k = none := by
  cases l
  · exact lookup_none_iff_of_keys_eq hePairs enPairs translation_keys_eq.symm k
  · exact lookup_none_iff_of_keys_eq enPairs hePairs translation_keys_eq k

/-- Every value in either dictionary is a non-empty string, so the
truthiness test of line 215 never rejects a present key. -/
theorem translations_ne_empty (l : Lang) (k t : String)
    (h : translations l k = some t) : t ≠ "" := by
  have hmem : t ∈ (translationPairs l).map Prod.snd :=
    lookup_some_snd_mem (translationPairs l) k t h
  intro he
  subst he
  cases l <;> revert hmem <;> decide

/-- The element update never touches the key or the tag of an element. -/
theorem updateElement_key (dict : String → Option String) (e : PageElement) :
    (updateElement dict e).key = e.key ∧
    (updateElement dict e).tagIsInput = e.tagIsInput := by
  unfold updateElement
  cases dict e.key with
  | none => exact ⟨rfl, rfl⟩
  | some t =>
    simp only
    by_cases ht : t = "" <;> by_cases htag : e.tagIsInput <;>
      simp [ht, htag]

/-- One element is consistent with locale `l` when, whenever `l`'s
dictionary binds its key, the bound text is already displayed (in the
placeholder for input elements, in the content otherwise). -/
def elementConsistent (l : Lang) (e : PageElement) : Bool :=
  match translations l e.key with
  | some t => if e.tagIsInput then e.placeholder == t else e.innerHTML == t
  | none => true

/-- The whole page displays locale `st.currentLang`: direction and language
attributes match it, the toggle buttons show its `lang_btn` label, and every
bound element is consistent with it. -/
def localeConsistent (st : PageState) : Prop :=
  st.dir = (if st.currentLang = Lang.he then "rtl" else "ltr") ∧
  st.lang = st.currentLang.code ∧
  st.btnText = langBtnLabel (translations st.currentLang) ∧
  ∀ e ∈ st.elements, elementConsistent st.currentLang e = true

/-- Updating an element for the flipped locale and then again for the
original locale restores a consistent element exactly. -/
theorem updateElement_restore (l : Lang) (e : PageElement)
    (hcons : elementConsistent l e = true) :
    updateElement (translations l) (updateElement (translations l.flip) e) = e := by
  obtain ⟨key, tag, inner, ph⟩ := e
  unfold elementConsistent at hcons
  cases hsrc : translations l key with
  | none =>
    have htgt : translations l.flip key = none := (translations_flip_none l key).mpr hsrc
    simp [updateElement, hsrc, htgt]
  | some t =>
    have ht : t ≠ "" := translations_ne_empty l key t hsrc
    cases htgt : translations l.flip key with
    | none =>
      exact absurd ((translations_flip_none l key).mp htgt ▸ hsrc) (by simp [htgt])
    | some t' =>
      have ht' : t' ≠ "" := translations_ne_empty l.flip key t' htgt
      simp only [hsrc] at hcons
      cases tag with
      | true =>
        have hph : ph = t := by simpa using hcons
        simp [updateElement, hsrc, htgt, ht, ht', hph]
      | false =>
        have hin : inner = t := by simpa using hcons
        simp [updateElement, hsrc, htgt, ht, ht', hin]

/-- Mapping a left inverse over a mapped list restores the original. -/
theorem map_map_restore {α : Type} (f g : α → α) :
    ∀ l : List α, (∀ e ∈ l, f (g e) = e) → (l.map g).map f = l := by
  intro l h
  induction l with
  | nil => rfl
  | cons a as ih =>
    simp only [List.map_cons, List.cons.injEq]
    exact ⟨h a (List.mem_cons_self a as),
      ih (fun e he => h e (List.mem_cons_of_mem a he))⟩

/-- C2 (amended): when the document currently displays the active locale —
direction/language attributes match it, the toggle buttons carry its
`lang_btn` label, and every bound element already shows its dictionary text
where one exists — two successive `toggleLanguage` calls restore the entire
page state exactly. -/
theorem C2_toggle_twice_restores (st : PageState) (h : localeConsistent st) :
    toggleLanguage (toggleLanguage st) = st := by
  obtain ⟨hdir, hlang, hbtn, helems⟩ := h
  obtain ⟨L, dir, lang, btn, elems⟩ := st
  simp only at hdir hlang hbtn helems
  simp only [toggleLanguage, toggleLanguageWith, Lang.flip_flip, PageState.mk.injEq,
    true_and]
  refine ⟨hdir.symm, hlang.symm, hbtn.symm, ?_⟩
  exact map_map_restore _ _ elems
    (fun e he => updateElement_restore L e (helems e he))

/-- C2 counterexample (the claim as stated, for *every* initial document
state, is false): a document whose direction attribute starts as `"rtl"`
while the manager is on the English locale ends with direction `"ltr"`
after two toggles, not its original value. -/
theorem C2_toggle_twice_counterexample :
    toggleLanguage (toggleLanguage ⟨Lang.en, "rtl", "en", "HE", []⟩)
      ≠ ⟨Lang.en, "rtl", "en", "HE", []⟩ := by
  decide

/-- Witness for amended C2: a concrete consistent page (one text element,
one input element) is restored exactly by a double toggle. -/
theorem C2_toggle_twice_restores_witness :
    toggleLanguage (toggleLanguage
        ⟨Lang.en, "ltr", "en", "HE",
          [⟨"nav_product", false, "Siman 3", ""⟩,
           ⟨"footer_email", true, "x", "Email Address"⟩]⟩)
      = ⟨Lang.en, "ltr", "en", "HE",
          [⟨"nav_product", false, "Siman 3", ""⟩,
           ⟨"footer_email", true, "x", "Email Address"⟩]⟩ :=
  C2_toggle_twice_restores
    ⟨Lang.en, "ltr", "en", "HE",
      [⟨"nav_product", false, "Siman 3", ""⟩,
       ⟨"footer_email", true, "x", "Email Address"⟩]⟩
    (by refine ⟨rfl, rfl, by decide, by decide⟩)

/-- C9: when an element's key is bound in the current locale's dictionary
but absent from the target locale's, the toggle's per-element update leaves
the element (content and placeholder alike) unchanged, and the unchanged
element is still on the page after the toggle. -/
theorem C9_missing_target_key_unchanged
    (trans : Lang → String → Option String) (st : PageState) (e : PageElement)
    (hmem : e ∈ st.elements)
    (hsrc : (trans st.currentLang e.key).isSome = true)
    (htgt : trans st.currentLang.flip e.key = none) :
    updateElement (trans st.currentLang.flip) e = e ∧
    e ∈ (toggleLanguageWith trans st).elements := by
  have hupd : updateElement (trans st.currentLang.flip) e = e := by
    simp [updateElement, htgt]
  refine ⟨hupd, ?_⟩
  have := List.mem_map_of_mem (updateElement (trans st.currentLang.flip)) hmem
  rw [hupd] at this
  exact this

/-- Witness for C9: a dictionary that binds `only_en` in English only; the
element keeps its prior text across a toggle from English to Hebrew. -/
theorem C9_missing_target_key_unchanged_witness :
    updateElement
        ((fun l k =>
            if l = Lang.en then (if k = "only_en" then some "Hello" else none)
            else none) Lang.he)
        ⟨"only_en", false, "prior text", ""⟩
      = ⟨"only_en", false, "prior text", ""⟩ ∧
    (⟨"only_en", false, "prior text", ""⟩ : PageElement) ∈
      (toggleLanguageWith
        (fun l k =>
          if l = Lang.en then (if k = "only_en" then some "Hello" else none)
          else none)
        ⟨Lang.en, "ltr", "en", "HE",
          [⟨"only_en", false, "prior text", ""⟩]⟩).elements :=
  C9_missing_target_key_unchanged
    (fun l k =>
      if l = Lang.en then (if k = "only_en" then some "Hello" else none)
      else none)
    ⟨Lang.en, "ltr", "en", "HE", [⟨"only_en", false, "prior text", ""⟩]⟩
    ⟨"only_en", false, "prior text", ""⟩
    (by decide) (by decide) (by decide)

/-! ## UIComponent constructor and Carousel.init (src/script.js lines 5-11
and 68-87) -/

/-- What `Carousel.init` dereferences inside its root element: the
`querySelector` results for `.carousel-track` (with the list of its child
slide nodes), `.next` and `.prev`.  `none` models a missing node. -/
structure CarouselDom where
  track : Option (List String)
  nextBtn : Option String
  prevBtn : Option String
deriving DecidableEq

/-- Method `Carousel.init` (lines 68-87).  It reads `this.track.children` (line
70) and calls `cloneNode` on both buttons (lines 76-77) before the
existence guard on line 83 ever runs; a missing node therefore raises a
`TypeError`, modelled as `Except.error`. -/
def carouselInit (dom : CarouselDom) : Except String CarouselState :=
  match dom.track with
  | none => .error "TypeError: null carousel-track"
  | some slides =>
    match dom.nextBtn with
    | none => .error "TypeError: null next button"
    | some _ =>
      match dom.prevBtn with
      | none => .error "TypeError: null prev button"
      | some _ => .ok { slides := slides, currentIndex := 0, trackTransform := "" }

/-- The `UIComponent` constructor (lines 5-11) as instantiated by
`Carousel`: look the root element up by id; when it is absent, return
silently without calling `init`; when present, run `Carousel.init` on it.
`none` in the result means the component stayed uninitialized. -/
def carouselConstruct (element : Option CarouselDom) :
    Except String (Option CarouselState) :=
  match element with
  | none => Except.ok none
  | some dom => (carouselInit dom).map some

/-- C3 evaluation: the root-element guard works (first conjunct), but when
the root exists and `.carousel-track` is missing inside it, `init` throws
instead of no-opping (second conjunct), and likewise for a missing `.next`
button (third conjunct). -/
theorem C3_carousel_init_throws :
    carouselConstruct none = Except.ok none ∧
    carouselConstruct (some ⟨none, some "n", some "p"⟩)
      = Except.error "TypeError: null carousel-track" ∧
    carouselConstruct (some ⟨some ["s1"], none, some "p"⟩)
      = Except.error "TypeError: null next button" :=
  ⟨rfl, rfl, rfl⟩

/-! ## RegistrationForm.handleSubmit (src/script.js lines 248-287) -/

/-- The HTTP response the leads endpoint returns to the POST: the status
code and the optional `detail` field of the JSON error body. -/
structure LeadPostResponse where
  status : Nat
  detail : Option String
deriving DecidableEq

/-- Getter `response.ok`: status in the inclusive range 200-299. -/
def responseOk (r : LeadPostResponse) : Bool :=
  decide (200 ≤ r.status) && decide (r.status < 300)

/-- The form state `handleSubmit` touches: the submit button's `disabled`
flag and label, whether `form.reset()` has run, and the `alert` calls made
so far (in order). -/
structure FormState where
  btnDisabled : Bool
  btnText : String
  fieldsCleared : Bool
  alerts : List String
deriving DecidableEq

/-- Method `RegistrationForm.handleSubmit` (lines 248-287): remembers the button
label, disables the button and shows `Sending...`; on a non-ok response
throws `Error(errorData.detail || 'Submission failed')`, caught by the
`catch` which alerts `Error: <message>\n\nPlease ensure the backend server
is running.`; on an ok response alerts the thank-you message and resets the
form; the `finally` block re-enables the button and restores its label.
The `||` fallback follows JavaScript truthiness: an absent or empty
`detail` yields the generic message. -/
def handleSubmit (resp : LeadPostResponse) (st : FormState) : FormState :=
  let originalText := st.btnText
  let st1 := { st with btnDisabled := true, btnText := "Sending..." }
  let st2 :=
    if responseOk resp then
      { st1 with
          alerts := st1.alerts ++ ["Thank you! Your details have been saved."]
        , fieldsCleared := true }
    else
      let msg :=
        match resp.detail with
        | some d => if d = "" then "Submission failed" else d
        | none => "Submission failed"
      { st1 with
          alerts := st1.alerts
            ++ ["Error: " ++ msg ++ "\n\nPlease ensure the backend server is running."] }
  { st2 with btnDisabled := false, btnText := originalText }

/-- C4: on HTTP 400 the surfaced alert contains the literal server `detail`
(or the generic message when no detail is present), the form is not
cleared, and the submit button ends re-enabled with its original label. -/
theorem C4_submit_error_path (resp : LeadPostResponse) (st : FormState)
    (hstatus : resp.status = 400) :
    (resp.detail = some "Invalid email" →
      (handleSubmit resp st).alerts = st.alerts
        ++ ["Error: " ++ "Invalid email"
            ++ "\n\nPlease ensure the backend server is running."]) ∧
    (resp.detail = none →
      (handleSubmit resp st).alerts = st.alerts
        ++ ["Error: " ++ "Submission failed"
            ++ "\n\nPlease ensure the backend server is running."]) ∧
    (handleSubmit resp st).fieldsCleared = st.fieldsCleared ∧
    (handleSubmit resp st).btnDisabled = false ∧
    (handleSubmit resp st).btnText = st.btnText := by
  obtain ⟨s, dtl⟩ := resp
  simp only at hstatus
  subst hstatus
  refine ⟨?_, ?_, rfl, rfl, rfl⟩
  · intro h
    simp only at h
    subst h
    rfl
  · intro h
    simp only at h
    subst h
    rfl

/-- Witness for C4: HTTP 400 with body detail `Invalid email` on a fresh
form surfaces exactly that message, leaves the form uncleared, and restores
the `Subscribe` button. -/
theorem C4_submit_error_path_witness :
    (handleSubmit ⟨400, some "Invalid email"⟩ ⟨false, "Subscribe", false, []⟩).alerts
      = ["Error: " ++ "Invalid email"
          ++ "\n\nPlease ensure the backend server is running."] ∧
    (handleSubmit ⟨400, some "Invalid email"⟩ ⟨false, "Subscribe", false, []⟩).fieldsCleared
      = false ∧
    (handleSubmit ⟨400, some "Invalid email"⟩ ⟨false, "Subscribe", false, []⟩).btnDisabled
      = false ∧
    (handleSubmit ⟨400, some "Invalid email"⟩ ⟨false, "Subscribe", false, []⟩).btnText
      = "Subscribe" := by
  have h := C4_submit_error_path ⟨400, some "Invalid email"⟩
    ⟨false, "Subscribe", false, []⟩ rfl
  exact ⟨h.1 rfl, h.2.2.1, h.2.2.2.1, h.2.2.2.2⟩

/-- C8: on any success status the user is informed, the form is cleared,
and the submit button ends re-enabled with its original label. -/
theorem C8_submit_success_path (resp : LeadPostResponse) (st : FormState)
    (hok : responseOk resp = true) :
    (handleSubmit resp st).alerts
      = st.alerts ++ ["Thank you! Your details have been saved."] ∧
    (handleSubmit resp st).fieldsCleared = true ∧
    (handleSubmit resp st).btnDisabled = false ∧
    (handleSubmit resp st).btnText = st.btnText := by
  simp [handleSubmit, hok]

/-- Witness for C8: HTTP 201 on a fresh form alerts the thank-you message,
clears the form, and restores the `Subscribe` button. -/
theorem C8_submit_success_path_witness :
    (handleSubmit ⟨201, none⟩ ⟨false, "Subscribe", false, []⟩).alerts
      = ["Thank you! Your details have been saved."] ∧
    (handleSubmit ⟨201, none⟩ ⟨false, "Subscribe", false, []⟩).fieldsCleared = true ∧
    (handleSubmit ⟨201, none⟩ ⟨false, "Subscribe", false, []⟩).btnDisabled = false ∧
    (handleSubmit ⟨201, none⟩ ⟨false, "Subscribe", false, []⟩).btnText = "Subscribe" :=
  C8_submit_success_path ⟨201, none⟩ ⟨false, "Subscribe", false, []⟩ (by decide)

/-! ## AdminDashboard (src/script.js lines 294-374) -/

/-- One lead as returned by `GET /api/leads`; `createdAt` is the parsed
timestamp of the creation date. -/
structure Lead where
  id : Nat
  name : String
  email : String
  phone : String
  status : String
  createdAt : Int
deriving DecidableEq

/-- One rendered table row (lines 326-354): the formatted date, the lead's
identifying fields, the status badge, and the pre-selected value of the
status dropdown. -/
structure LeadRow where
  date : Int
  name : String
  email : String
  phone : String
  status : String
  selectValue : String
deriving DecidableEq

/-- The row built for one lead by the loop body of lines 326-354; the
dropdown is pre-set to the lead's current status (lines 342-347). -/
def renderRow (lead : Lead) : LeadRow :=
  { date := lead.createdAt, name := lead.name, email := lead.email
  , phone := lead.phone, status := lead.status, selectValue := lead.status }

/-- The comparator of line 324, `(a, b) => new Date(b.createdAt) - new
Date(a.createdAt)`, keeps `a` no later than `b` exactly when
`b.createdAt ≤ a.createdAt`, i.e. sorts descending by creation time. -/
def leadDescOrder (a b : Lead) : Bool :=
  decide (b.createdAt ≤ a.createdAt)

/-- Method `AdminDashboard.renderLeads` (lines 320-356): clears the table body,
sorts the leads descending by `createdAt` (`Array.prototype.sort` is a
stable comparison sort, modelled by `List.mergeSort`), and appends one row
per lead in that order. -/
def renderLeads (leads : List Lead) : List LeadRow :=
  (leads.mergeSort leadDescOrder).map renderRow

/-- The dashboard state the status-change flow touches: the rendered table
body, the `alert` calls made so far, and the number of times the lead list
has been fetched. -/
structure DashState where
  tbody : List LeadRow
  alerts : List String
  fetchCount : Nat
deriving DecidableEq

/-- Method `AdminDashboard.fetchLeads` (lines 309-318) on a successful GET whose
JSON body is `leads`. -/
def fetchLeads (leads : List Lead) (st : DashState) : DashState :=
  { st with fetchCount := st.fetchCount + 1, tbody := renderLeads leads }

/-- Method `AdminDashboard.updateStatus` (lines 358-373): PATCHes the per-lead
endpoint; returns `true` on an ok response; a non-ok response throws, and
the `catch` alerts `Error updating status` and returns `false`.  The first
component is the returned boolean, the second the alerts raised. -/
def updateStatus (patchOk : Bool) : Bool × List String :=
  if patchOk then (true, []) else (false, ["Error updating status"])

/-- The dropdown `change` handler (lines 348-351): awaits `updateStatus`
and calls `fetchLeads` again only when it returned `true`; `newLeads` is
what that follow-up GET returns. -/
def statusChangeHandler (patchOk : Bool) (newLeads : List Lead)
    (st : DashState) : DashState :=
  let r := updateStatus patchOk
  let st1 := { st with alerts := st.alerts ++ r.2 }
  if r.1 then fetchLeads newLeads st1 else st1

/-- C5: a status change triggers exactly one additional fetch of the lead
list precisely when the PATCH succeeded; on failure the user is alerted,
no re-fetch happens, and the rendered table is left unchanged. -/
theorem C5_updateStatus_refetch (patchOk : Bool) (newLeads : List Lead)
    (st : DashState) :
    ((statusChangeHandler patchOk newLeads st).fetchCount = st.fetchCount + 1
        ↔ patchOk = true) ∧
    (patchOk = false →
      statusChangeHandler patchOk newLeads st
        = { st with alerts := st.alerts ++ ["Error updating status"] }) := by
  cases patchOk with
  | true => simp [statusChangeHandler, updateStatus, fetchLeads]
  | false =>
    refine ⟨?_, fun _ => rfl⟩
    simp only [statusChangeHandler, updateStatus]
    simp

/-- C7: `renderLeads` renders one row per lead, in an order that is a
permutation of the input sorted descending by `createdAt`; in particular a
June 2024 lead is rendered before a January 2024 one. -/
theorem C7_renderLeads_sorted_desc :
    (∀ leads : List Lead, ∃ sorted : List Lead,
        sorted.Perm leads ∧
        sorted.Pairwise (fun a b => b.createdAt ≤ a.createdAt) ∧
        renderLeads leads = sorted.map renderRow) ∧
    renderLeads
        [⟨1, "Jan", "jan@x.com", "050", "new", 1704067200000⟩,
         ⟨2, "Jun", "jun@x.com", "051", "new", 1717200000000⟩]
      = [renderRow ⟨2, "Jun", "jun@x.com", "051", "new", 1717200000000⟩,
         renderRow ⟨1, "Jan", "jan@x.com", "050", "new", 1704067200000⟩] := by
  constructor
  · intro leads
    refine ⟨leads.mergeSort leadDescOrder,
      List.mergeSort_perm leads leadDescOrder, ?_, rfl⟩
    have hs := @List.sorted_mergeSort Lead leadDescOrder
      (fun a b c hab hbc => by
        simp only [leadDescOrder, decide_eq_true_eq] at hab hbc ⊢
        omega)
      (fun a b => by
        simp only [leadDescOrder, Bool.or_eq_true, decide_eq_true_eq]
        omega)
      leads
    exact hs.imp (fun h => by
      simpa only [leadDescOrder, decide_eq_true_eq] using h)
  · simp [renderLeads, List.mergeSort, leadDescOrder, renderRow]

end Heara
